import Mathlib

/-
Verification of the oneskill discover/stage/enrich/score pipeline.

The definitions below are shallow embeddings of the JavaScript pipeline code
(scripts/scrape-github.mjs and scripts/scrape-bigquery.mjs).  Floating-point
arithmetic in the source (Math.log10, Math.floor, Math.round) is idealised as
exact real/rational arithmetic; `Math.floor(Math.log10(x) * k)` over naturals
is embedded as `Nat.log 10 (x ^ k)` (resp. `Int.log` over ℚ), and the bridge
lemmas `floor_logb_mul_nat` / `floor_logb_mul_rat` prove these equal the
real-number expressions `⌊Real.logb 10 x * k⌋` appearing in the specification.
-/

set_option maxRecDepth 8000

namespace OneSkill

/-! ### Scoring engine (scrape-github.mjs `buildArtifact`,
    scrape-bigquery.mjs `computeVibeScore`) -/

/-- Embedding of `Math.min(40, Math.floor(Math.log10(Math.max(1, stars)) * 15))`
(scrape-github.mjs line 696): `⌊15·log10 x⌋ = ⌊log10 (x^15)⌋ = Nat.log 10 (x^15)`. -/
def starScore (stars : ℕ) : ℕ :=
  min 40 (Nat.log 10 (max 1 stars ^ 15))

/-- Embedding of `Math.min(15, Math.floor(Math.log10(Math.max(1, forks)) * 8))`
(scrape-github.mjs line 697). -/
def forkScore (forks : ℕ) : ℕ :=
  min 15 (Nat.log 10 (max 1 forks ^ 8))

/-- Embedding of `daysAgo < 14 ? 20 : daysAgo < 30 ? 15 : daysAgo < 90 ? 8 : 0`
(scrape-github.mjs line 698).  `daysAgo` is the fractional number of days since
the repository's last update. -/
def recencyScore (daysAgo : ℚ) : ℕ :=
  if daysAgo < 14 then 20 else if daysAgo < 30 then 15 else if daysAgo < 90 then 8 else 0

/-- Embedding of `Math.min(100, starScore + forkScore + recencyScore)`
(scrape-github.mjs line 699; the identical formula appears in
scrape-bigquery.mjs lines 1838-1841). -/
def trendingScore (stars forks : ℕ) (daysAgo : ℚ) : ℕ :=
  min 100 (starScore stars + forkScore forks + recencyScore daysAgo)

/-- Embedding of the download component of `computeVibeScore`
(scrape-bigquery.mjs lines 941-942):
`Math.min(30, Math.floor(Math.log10(Math.max(1, npm + pypi)) * 8))`. -/
def downloadSignal (npmDownloads pypiDownloads : ℕ) : ℤ :=
  min 30 (Nat.log 10 (max 1 (npmDownloads + pypiDownloads) ^ 8) : ℤ)

/-- Embedding of `Math.min(30, (mentions7d * 5) + (mentions30d * 1))`
(scrape-bigquery.mjs line 944). -/
def mentionSignal (mentions7d mentions30d : ℕ) : ℤ :=
  min 30 ((mentions7d : ℤ) * 5 + (mentions30d : ℤ) * 1)

/-- Embedding of `Math.min(20, Math.floor(Math.log10(Math.max(1, avgScore)) * 10))`
(scrape-bigquery.mjs line 946).  The average mention score is a rational. -/
def qualitySignal (avgScore : ℚ) : ℤ :=
  min 20 (Int.log 10 (max 1 avgScore ^ 10))

/-- Embedding of `Math.round(((sentimentAvg || 0) + 1) * 5)`
(scrape-bigquery.mjs line 948); `round` on ℚ is `⌊x + 1/2⌋`, exactly JS
`Math.round`. -/
def sentimentSignal (sentimentAvg : ℚ) : ℤ :=
  round ((sentimentAvg + 1) * 5)

/-- Embedding of `mentions7d > 0 ? 10 : mentions30d > 0 ? 5 : 0`
(scrape-bigquery.mjs line 950). -/
def recencySignal (mentions7d mentions30d : ℕ) : ℤ :=
  if 0 < mentions7d then 10 else if 0 < mentions30d then 5 else 0

/-- Embedding of `computeVibeScore` (scrape-bigquery.mjs lines 940-953). -/
def computeVibeScore (npmDownloads pypiDownloads mentions7d mentions30d : ℕ)
    (avgScore sentimentAvg : ℚ) : ℤ :=
  min 100 (downloadSignal npmDownloads pypiDownloads
    + mentionSignal mentions7d mentions30d
    + qualitySignal avgScore
    + sentimentSignal sentimentAvg
    + recencySignal mentions7d mentions30d)

/-! ### Staging-store data model (raw_repos rows) -/

/-- Retry budget for enrichment: `MAX_ENRICH_ATTEMPTS = 3` (scrape-github.mjs
line 80, scrape-bigquery.mjs). -/
def MAX_ENRICH_ATTEMPTS : ℕ := 3

/-- The enrichment lifecycle states of a staged candidate. -/
inductive EnrichStatus
  | pending
  | enriched
  | failed
  | skipped
deriving DecidableEq

/-- A staged candidate row of the `raw_repos` table, restricted to the fields
the enrichment control flow reads and writes.  `github_updated_at_ms` models
the parsed `github_updated_at` timestamp in epoch milliseconds. -/
structure RawRecord where
  id : ℕ
  full_name : String
  repo_name : String
  type_hint : String
  stars : ℕ
  forks : ℕ
  github_updated_at_ms : ℤ
  status : EnrichStatus
  enrich_attempts : ℕ
  enrichment_error : Option String
deriving DecidableEq

/-- The result object of one generative classification call, restricted to the
classification fields the pipeline control flow depends on.  After
`validateEnrichment` both fields are strings drawn from the fixed taxonomies
or copied from the hint/default. -/
structure Enrichment where
  artifact_type : String
  category : String
deriving DecidableEq

/-- The closed artifact-type taxonomy `VALID_TYPES` (scrape-github.mjs
line 513, scrape-bigquery.mjs line 1622). -/
def VALID_TYPES : List String :=
  ["skill", "mcp-server", "cursor-rules", "n8n-node", "workflow", "langchain-tool", "crewai-tool"]

/-- The Gemini category labels, i.e. the keys of `CATEGORY_LABEL_TO_SLUG`
(scrape-github.mjs lines 254-261). -/
def CATEGORY_LABEL_TO_SLUG : List (String × String) :=
  [("Frontend", "frontend"), ("Backend", "backend"), ("DevOps", "devops"),
   ("AI / ML", "ai-ml"), ("Database", "database"), ("Security", "security"),
   ("Automation", "automation"), ("Web Scraping", "web-scraping"), ("Research", "research"),
   ("Design", "design"), ("Mobile", "mobile"), ("Testing", "testing"),
   ("Data Engineering", "data-engineering"), ("Documentation", "documentation"),
   ("Productivity", "productivity")]

def GEMINI_CATEGORIES : List String := CATEGORY_LABEL_TO_SLUG.map Prod.fst

/-! ### Artifact construction (`buildArtifact`) -/

/-- Embedding of the slug derivation in `buildArtifact` (scrape-github.mjs
line 701): `github_full_name.replace('/', '-').toLowerCase().replace(/[^a-z0-9-]/g, '')`.
JS `String.replace` with a string pattern replaces only the FIRST occurrence. -/
def replaceFirstChar : List Char → Char → Char → List Char
  | [], _, _ => []
  | c :: cs, a, b => if c = a then b :: cs else c :: replaceFirstChar cs a b

def isSlugChar (c : Char) : Bool :=
  decide ((Char.ofNat 97 ≤ c ∧ c ≤ Char.ofNat 122) ∨
    (Char.ofNat 48 ≤ c ∧ c ≤ Char.ofNat 57) ∨ c = Char.ofNat 45)

def slugOf (fullName : String) : String :=
  String.mk (((replaceFirstChar fullName.data (Char.ofNat 47) (Char.ofNat 45)).map
    Char.toLower).filter isSlugChar)

/-- Embedding of `e.artifact_type || rawRepo.type_hint` (scrape-github.mjs
line 689): the empty string is the only falsy string. -/
def typeSlugOf (enr : Option Enrichment) (r : RawRecord) : String :=
  match enr with
  | some e => if e.artifact_type = "" then r.type_hint else e.artifact_type
  | none => r.type_hint

/-- Embedding of `CATEGORY_LABEL_TO_SLUG[catLabel] || 'ai-ml'` (scrape-github.mjs
lines 690-691). -/
def catSlugOf (enr : Option Enrichment) : String :=
  let catLabel := match enr with
    | some e => if e.category = "" then "AI / ML" else e.category
    | none => "AI / ML"
  (CATEGORY_LABEL_TO_SLUG.lookup catLabel).getD "ai-ml"

/-- The canonical artifact row, restricted to the identity and scoring fields
the claims concern. -/
structure Artifact where
  slug : String
  name : String
  artifact_type_id : ℕ
  category_id : Option ℕ
  contributor_id : Option ℕ
  github_repo_full_name : String
  stars : ℕ
  forks : ℕ
  trending_score : ℕ
deriving DecidableEq

/-- Embedding of `buildArtifact` (scrape-github.mjs lines 687-745; the same
function appears in scrape-bigquery.mjs lines 1829 ff.).  `typeMap` and
`catMap` are the `TYPE_MAP` / `CATEGORY_MAP` slug→id lookup maps loaded from
the database; `nowMs` is `Date.now()`.  Returns `none` exactly when the
artifact-type slug has no entry in `typeMap` (the `if (!artifactTypeId)`
early return at lines 705-708). -/
def buildArtifact (typeMap catMap : List (String × ℕ)) (nowMs : ℤ)
    (r : RawRecord) (enr : Option Enrichment) (contributorId : Option ℕ) : Option Artifact :=
  let daysAgo : ℚ := ((nowMs - r.github_updated_at_ms : ℤ) : ℚ) / 86400000
  match typeMap.lookup (typeSlugOf enr r) with
  | none => none
  | some tid => some
    { slug := slugOf r.full_name
      name := r.repo_name
      artifact_type_id := tid
      category_id := (catMap.lookup (catSlugOf enr)).orElse (fun _ => catMap.lookup "ai-ml")
      contributor_id := contributorId
      github_repo_full_name := r.full_name
      stars := r.stars
      forks := r.forks
      trending_score := trendingScore r.stars r.forks daysAgo }

/-! ### Per-record enrichment outcome (`runEnrich` loop body) -/

/-- Embedding of the failure branch of the `runEnrich` loop (scrape-github.mjs
lines 910-931, scrape-bigquery.mjs lines 2013-2034): increment the attempt
counter, record the error, and set the status to `skipped` once the counter
reaches `MAX_ENRICH_ATTEMPTS`, else `failed`. -/
def markFailed (r : RawRecord) : RawRecord :=
  let newAttempts := r.enrich_attempts + 1
  { r with
    status := if MAX_ENRICH_ATTEMPTS ≤ newAttempts then .skipped else .failed
    enrich_attempts := newAttempts
    enrichment_error := some "Gemini enrichment returned null" }

/-- Embedding of the whole per-record outcome of one enrichment run
(scrape-github.mjs lines 906-949 together with the `enrichment_status:
'enriched'` patch in `upsertArtifacts` lines 774-781): a null enrichment is
marked failed/skipped; a successful enrichment increments the attempt counter,
and the status flips to `enriched` only if `buildArtifact` produced an
artifact row that was upserted. -/
def recordAfterRun (typeMap catMap : List (String × ℕ)) (nowMs : ℤ)
    (r : RawRecord) (enr : Option Enrichment) (contributorId : Option ℕ) : RawRecord :=
  match enr with
  | none => markFailed r
  | some e =>
    let r1 := { r with enrich_attempts := r.enrich_attempts + 1 }
    match buildArtifact typeMap catMap nowMs r (some e) contributorId with
    | some _ => { r1 with status := .enriched }
    | none => r1

/-- Embedding of the `listPending` selection used by `runEnrich`
(scrape-github.mjs lines 832-840, scrape-bigquery.mjs lines 1966-1973):
`enrichment_status=in.(pending,failed)` and
`enrich_attempts=lt.MAX_ENRICH_ATTEMPTS`. -/
def selectedByListPending (r : RawRecord) : Bool :=
  (match r.status with
    | .pending => true
    | .failed => true
    | _ => false)
  && decide (r.enrich_attempts < MAX_ENRICH_ATTEMPTS)

/-! ### Discovery upsert row (`repoToRawRow` / `saveReposBatch`) -/

/-- A column value of a Supabase row. -/
inductive SBValue
  | s (v : String)
  | n (v : ℕ)
  | list (v : List String)
  | null
deriving DecidableEq

/-- The GitHub API repository object, restricted to the fields
`repoToRawRow` reads. -/
structure GhRepo where
  full_name : String
  owner_login : String
  name : String
  description : Option String
  language : Option String
  stargazers_count : ℕ
  forks_count : ℕ
  open_issues_count : ℕ
  license : Option String
  default_branch : Option String
  topics : List String
  html_url : String
  owner_avatar_url : String
  owner_html_url : String
  created_at : String
  updated_at : String

/-- Embedding of `repoToRawRow` (scrape-github.mjs lines 367-389) as the list
of column/value pairs of the upserted row.  The row carries NO
`enrichment_status` and NO `enrich_attempts` column. -/
def repoToRawRow (repo : GhRepo) (hint : String) (readme : Option String)
    (nowIso : String) : List (String × SBValue) :=
  [("github_full_name", .s repo.full_name),
   ("owner_login", .s repo.owner_login),
   ("repo_name", .s repo.name),
   ("description", .s ((repo.description.getD "").take 500)),
   ("language", match repo.language with | some l => .s l | none => .null),
   ("stars", .n repo.stargazers_count),
   ("forks", .n repo.forks_count),
   ("open_issues", .n repo.open_issues_count),
   ("license", match repo.license with | some l => .s l | none => .null),
   ("default_branch", .s (repo.default_branch.getD "main")),
   ("topics", .list repo.topics),
   ("github_url", .s repo.html_url),
   ("owner_avatar_url", .s repo.owner_avatar_url),
   ("owner_html_url", .s repo.owner_html_url),
   ("github_created_at", .s repo.created_at),
   ("github_updated_at", .s repo.updated_at),
   ("readme_raw", match readme with | some t => .s (t.take 50000) | none => .null),
   ("type_hint", .s hint),
   ("updated_at", .s nowIso)]

/-- Embedding of a PostgREST upsert with `Prefer: resolution=merge-duplicates`
(`sbUpsert`, scrape-github.mjs lines 207-218) on an existing row with the same
conflict key: every column present in the sent row is overwritten, every other
column of the stored row is left untouched. -/
def sbMergeUpsert (stored : String → SBValue) (row : List (String × SBValue)) :
    String → SBValue :=
  fun col => match row.lookup col with
    | some v => v
    | none => stored col

/-! ### Rate-limited GitHub fetcher (`githubFetch`) -/

/-- Retry budget `GITHUB_MAX_RETRIES = 4` (scrape-github.mjs line 276). -/
def GITHUB_MAX_RETRIES : ℕ := 4

/-- One HTTP response as seen by `githubFetch`: the status code, the
`x-ratelimit-remaining` header (if present), the distance
`reset*1000 - Date.now()` in milliseconds, and an opaque body id. -/
structure GhResponse where
  status : ℕ
  remaining : Option ℤ
  resetDeltaMs : ℤ
  body : ℕ

/-- The observable outcome of a `githubFetch` call: the returned value
(`none` models `return null`), the number of HTTP requests issued, and the
backoff sleeps performed, split by cause. -/
structure GhFetchOut where
  result : Option ℕ
  requests : ℕ
  backoffWaits : List ℤ
  serverWaits : List ℤ
  proactiveWaits : List ℤ
deriving DecidableEq

/-- The capped rate-limit backoff (scrape-github.mjs lines 298-300):
`min(max(5000, reset - now) + 2000, 120000)`. -/
def rateBackoff (resetDeltaMs : ℤ) : ℤ :=
  min (max 5000 resetDeltaMs + 2000) 120000

/-- Embedding of the retry loop of `githubFetch` (scrape-github.mjs lines
285-321).  `resp a` is the response to the request made at loop index `a`;
the fuel argument counts the remaining loop iterations (`retries + 1 - a`). -/
def githubFetchGo (resp : ℕ → GhResponse) (retries : ℕ) : ℕ → ℕ → GhFetchOut
  | _, 0 => { result := none, requests := 0, backoffWaits := [], serverWaits := [], proactiveWaits := [] }
  | attempt, fuel + 1 =>
    let r := resp attempt
    let pro : List ℤ := match r.remaining with
      | some rem => if rem < 3 then [max 0 r.resetDeltaMs + 2000] else []
      | none => []
    let base : GhFetchOut :=
      { result := none, requests := 1, backoffWaits := [], serverWaits := [], proactiveWaits := pro }
    if r.status = 403 ∨ r.status = 429 then
      if attempt < retries then
        let rest := githubFetchGo resp retries (attempt + 1) fuel
        { result := rest.result, requests := 1 + rest.requests,
          backoffWaits := rateBackoff r.resetDeltaMs :: rest.backoffWaits,
          serverWaits := rest.serverWaits,
          proactiveWaits := pro ++ rest.proactiveWaits }
      else base
    else if r.status = 404 ∨ r.status = 422 then base
    else if 200 ≤ r.status ∧ r.status < 300 then { base with result := some r.body }
    else if 500 ≤ r.status ∧ attempt < retries then
      let rest := githubFetchGo resp retries (attempt + 1) fuel
      { result := rest.result, requests := 1 + rest.requests,
        backoffWaits := rest.backoffWaits,
        serverWaits := (3000 * ((attempt : ℤ) + 1)) :: rest.serverWaits,
        proactiveWaits := pro ++ rest.proactiveWaits }
    else base

/-- Embedding of `githubFetch(url, raw, retries)` with its full retry loop. -/
def githubFetch (resp : ℕ → GhResponse) (retries : ℕ) : GhFetchOut :=
  githubFetchGo resp retries 0 (retries + 1)

/-! ### JSON values and `JSON.parse` -/

/-- Parsed JSON values.  Numbers are idealised as rationals. -/
inductive JVal
  | jnull
  | jbool (b : Bool)
  | jnum (v : ℚ)
  | jstr (s : String)
  | jarr (elems : List JVal)
  | jobj (fields : List (String × JVal))

def quoteChar : Char := Char.ofNat 34
def backslashChar : Char := Char.ofNat 92
def slashChar : Char := Char.ofNat 47
def nlChar : Char := Char.ofNat 10
def crChar : Char := Char.ofNat 13
def tabChar : Char := Char.ofNat 9
def btChar : Char := Char.ofNat 96
def lbrackChar : Char := Char.ofNat 91
def rbrackChar : Char := Char.ofNat 93
def lbraceChar : Char := Char.ofNat 123
def rbraceChar : Char := Char.ofNat 125
def commaChar : Char := Char.ofNat 44
def colonChar : Char := Char.ofNat 58
def minusChar : Char := Char.ofNat 45
def plusChar : Char := Char.ofNat 43
def dotChar : Char := Char.ofNat 46

/-- JSON structural whitespace (space, tab, newline, carriage return). -/
def isJsonWs (c : Char) : Bool :=
  decide (c.toNat = 32 ∨ c.toNat = 9 ∨ c.toNat = 10 ∨ c.toNat = 13)

/-- JS regex `\s` (the subset relevant to ASCII output of a text model). -/
def isRegexWs (c : Char) : Bool :=
  decide (c.toNat = 32 ∨ (9 ≤ c.toNat ∧ c.toNat ≤ 13))

def isAsciiDigit (c : Char) : Bool := decide (48 ≤ c.toNat ∧ c.toNat ≤ 57)

def isHexDigit (c : Char) : Bool :=
  decide ((48 ≤ c.toNat ∧ c.toNat ≤ 57) ∨ (97 ≤ c.toNat ∧ c.toNat ≤ 102) ∨
    (65 ≤ c.toNat ∧ c.toNat ≤ 70))

def hexVal (c : Char) : ℕ :=
  if 48 ≤ c.toNat ∧ c.toNat ≤ 57 then c.toNat - 48
  else if 97 ≤ c.toNat then c.toNat - 87
  else c.toNat - 55

/-- Body of a JSON string literal after the opening quote: returns the decoded
content and the input after the closing quote.  Rejects raw control
characters, as `JSON.parse` does. -/
def parseStringBody : List Char → Option (List Char × List Char)
  | [] => none
  | c :: cs =>
    if c = quoteChar then some ([], cs)
    else if c = backslashChar then
      match cs with
      | [] => none
      | e :: cs' =>
        if e = quoteChar ∨ e = backslashChar ∨ e = slashChar then
          (fun p => (e :: p.1, p.2)) <$> parseStringBody cs'
        else if e = Char.ofNat 110 then
          (fun p => (nlChar :: p.1, p.2)) <$> parseStringBody cs'
        else if e = Char.ofNat 116 then
          (fun p => (tabChar :: p.1, p.2)) <$> parseStringBody cs'
        else if e = Char.ofNat 114 then
          (fun p => (crChar :: p.1, p.2)) <$> parseStringBody cs'
        else if e = Char.ofNat 98 then
          (fun p => (Char.ofNat 8 :: p.1, p.2)) <$> parseStringBody cs'
        else if e = Char.ofNat 102 then
          (fun p => (Char.ofNat 12 :: p.1, p.2)) <$> parseStringBody cs'
        else if e = Char.ofNat 117 then
          match cs' with
          | h1 :: h2 :: h3 :: h4 :: cs'' =>
            if isHexDigit h1 && isHexDigit h2 && isHexDigit h3 && isHexDigit h4 then
              (fun p => (Char.ofNat (((hexVal h1 * 16 + hexVal h2) * 16 + hexVal h3) * 16 + hexVal h4) :: p.1, p.2))
                <$> parseStringBody cs''
            else none
          | _ => none
        else none
    else if c.toNat < 32 then none
    else (fun p => (c :: p.1, p.2)) <$> parseStringBody cs

def digitsToNat (ds : List Char) : ℕ :=
  ds.foldl (fun acc c => acc * 10 + (c.toNat - 48)) 0

/-- JSON number grammar: `-? (0 | [1-9][0-9]*) (. [0-9]+)? ([eE][+-]?[0-9]+)?`. -/
def parseNumber (cs : List Char) : Option (ℚ × List Char) :=
  let (neg, cs1) := match cs with
    | c :: rest => if c = minusChar then (true, rest) else (false, cs)
    | [] => (false, cs)
  let intDigits := cs1.takeWhile isAsciiDigit
  let afterInt := cs1.dropWhile isAsciiDigit
  if intDigits.isEmpty then none
  else if 2 ≤ intDigits.length ∧ intDigits.headI = Char.ofNat 48 then none
  else
    let (fracDigits, afterFrac) := match afterInt with
      | c :: rest =>
        if c = dotChar then (rest.takeWhile isAsciiDigit, rest.dropWhile isAsciiDigit)
        else ([], afterInt)
      | [] => ([], afterInt)
    let hasDot : Bool := match afterInt with | c :: _ => decide (c = dotChar) | [] => false
    if hasDot ∧ fracDigits.isEmpty then none
    else
      let expPart : Option (ℤ × List Char) := match afterFrac with
        | c :: rest =>
          if c = Char.ofNat 101 ∨ c = Char.ofNat 69 then
            let (eneg, rest1) := match rest with
              | d :: rest' =>
                if d = minusChar then (true, rest')
                else if d = plusChar then (false, rest') else (false, rest)
              | [] => (false, rest)
            let eDigits := rest1.takeWhile isAsciiDigit
            let rest2 := rest1.dropWhile isAsciiDigit
            if eDigits.isEmpty then none
            else some ((if eneg then -(digitsToNat eDigits : ℤ) else (digitsToNat eDigits : ℤ)), rest2)
          else none
        | [] => none
      let mantissa : ℚ := (digitsToNat intDigits : ℚ) +
        (digitsToNat fracDigits : ℚ) / ((10 : ℚ) ^ fracDigits.length)
      let signed : ℚ := if neg then -mantissa else mantissa
      match expPart with
      | some (e, rest2) => some (signed * (10 : ℚ) ^ e, rest2)
      | none =>
        let hasExpMark : Bool := match afterFrac with
          | c :: _ => decide (c = Char.ofNat 101 ∨ c = Char.ofNat 69)
          | [] => false
        if hasExpMark then none else some (signed, afterFrac)

mutual

/-- Recursive-descent JSON value parser (fuel-indexed). -/
def parseVal : ℕ → List Char → Option (JVal × List Char)
  | 0, _ => none
  | fuel + 1, cs =>
    let cs1 := cs.dropWhile isJsonWs
    match cs1 with
    | [] => none
    | c :: rest =>
      if c = quoteChar then
        (fun p => (JVal.jstr (String.mk p.1), p.2)) <$> parseStringBody rest
      else if c = Char.ofNat 116 then
        match rest with
        | r :: u :: e :: rest' =>
          if r = Char.ofNat 114 ∧ u = Char.ofNat 117 ∧ e = Char.ofNat 101 then
            some (JVal.jbool true, rest')
          else none
        | _ => none
      else if c = Char.ofNat 102 then
        match rest with
        | a :: l :: s :: e :: rest' =>
          if a = Char.ofNat 97 ∧ l = Char.ofNat 108 ∧ s = Char.ofNat 115 ∧ e = Char.ofNat 101 then
            some (JVal.jbool false, rest')
          else none
        | _ => none
      else if c = Char.ofNat 110 then
        match rest with
        | u :: l1 :: l2 :: rest' =>
          if u = Char.ofNat 117 ∧ l1 = Char.ofNat 108 ∧ l2 = Char.ofNat 108 then
            some (JVal.jnull, rest')
          else none
        | _ => none
      else if c = lbrackChar then
        let inner := rest.dropWhile isJsonWs
        match inner with
        | d :: rest' =>
          if d = rbrackChar then some (JVal.jarr [], rest')
          else (fun p => (JVal.jarr p.1, p.2)) <$> parseItems fuel inner
        | [] => none
      else if c = lbraceChar then
        let inner := rest.dropWhile isJsonWs
        match inner with
        | d :: rest' =>
          if d = rbraceChar then some (JVal.jobj [], rest')
          else (fun p => (JVal.jobj p.1, p.2)) <$> parseMembers fuel inner
        | [] => none
      else if c = minusChar ∨ isAsciiDigit c then
        (fun p => (JVal.jnum p.1, p.2)) <$> parseNumber cs1
      else none

/-- Comma-separated array elements up to and including the closing bracket. -/
def parseItems : ℕ → List Char → Option (List JVal × List Char)
  | 0, _ => none
  | fuel + 1, cs =>
    match parseVal fuel cs with
    | none => none
    | some (v, rest) =>
      let rest1 := rest.dropWhile isJsonWs
      match rest1 with
      | c :: rest' =>
        if c = commaChar then (fun p => (v :: p.1, p.2)) <$> parseItems fuel rest'
        else if c = rbrackChar then some ([v], rest')
        else none
      | [] => none

/-- Comma-separated object members up to and including the closing brace. -/
def parseMembers : ℕ → List Char → Option (List (String × JVal) × List Char)
  | 0, _ => none
  | fuel + 1, cs =>
    let cs1 := cs.dropWhile isJsonWs
    match cs1 with
    | c :: rest =>
      if c = quoteChar then
        match parseStringBody rest with
        | none => none
        | some (key, afterKey) =>
          let afterKey1 := afterKey.dropWhile isJsonWs
          match afterKey1 with
          | d :: rest2 =>
            if d = colonChar then
              match parseVal fuel rest2 with
              | none => none
              | some (v, afterVal) =>
                let afterVal1 := afterVal.dropWhile isJsonWs
                match afterVal1 with
                | e :: rest3 =>
                  if e = commaChar then
                    (fun p => ((String.mk key, v) :: p.1, p.2)) <$> parseMembers fuel rest3
                  else if e = rbraceChar then some ([(String.mk key, v)], rest3)
                  else none
                | [] => none
            else none
          | [] => none
      else none
    | [] => none

end

/-- Embedding of `JSON.parse`: parse one value and require only whitespace to
remain. -/
def jsonParse (cs : List Char) : Option JVal :=
  match parseVal (2 * cs.length + 4) cs with
  | some (v, rest) => if (rest.dropWhile isJsonWs).isEmpty then some v else none
  | none => none

/-! ### The JSON repair cascade (`repairJSON`, scrape-bigquery.mjs lines
1581-1620; identical copy at src/unnamed/part_002 lines 305-355) -/

def headIs3Backticks (cs : List Char) : Bool :=
  match cs with
  | a :: b :: c :: _ => a = btChar && b = btChar && c = btChar
  | _ => false

/-- Drops leading regex whitespace, remembering the last dropped character (to
know whether the position after the match is a line start). -/
def dropWsLast (acc : Option Char) : List Char → (List Char × Option Char)
  | [] => ([], acc)
  | c :: cs => if isRegexWs c then dropWsLast (some c) cs else (c :: cs, acc)

/-- Model of `s.replace(/^```(?:json)?\s*/gm, '')`: at each line start of the
original string, a run of three backticks, an optional `json`, and the
following whitespace run are deleted; scanning resumes after the match. -/
def stripFenceOpens : ℕ → Bool → List Char → List Char
  | 0, _, cs => cs
  | fuel + 1, atLS, cs =>
    match cs with
    | [] => []
    | c :: rest =>
      if atLS ∧ headIs3Backticks cs then
        let tail := cs.drop 3
        let tail2 := match tail with
          | j :: s :: o :: n :: t2 =>
            if j = Char.ofNat 106 ∧ s = Char.ofNat 115 ∧ o = Char.ofNat 111 ∧ n = Char.ofNat 110
            then t2 else tail
          | _ => tail
        let wsDropped := dropWsLast none tail2
        stripFenceOpens fuel
          (match wsDropped.2 with
            | some lastWs => lastWs = nlChar
            | none => false)
          wsDropped.1
      else c :: stripFenceOpens fuel (c = nlChar) rest

/-- Remaining input from the last newline inside a whitespace run (the
backtracked `\s*` before a multiline `$`). -/
def fromLastNewline (ws : List Char) : Option (List Char) :=
  let revAfter := ws.reverse.takeWhile (fun c => ¬ c = nlChar)
  if revAfter.length = ws.length then none
  else some (nlChar :: revAfter.reverse)

/-- Model of `.replace(/```\s*$/gm, '')`: three backticks followed by
whitespace running to a line end (or to the end of the string) are deleted. -/
def stripFenceCloses : ℕ → List Char → List Char
  | 0, cs => cs
  | _ + 1, [] => []
  | fuel + 1, c :: rest =>
    if headIs3Backticks (c :: rest) then
      let tail := (c :: rest).drop 3
      let ws := tail.takeWhile isRegexWs
      let afterWs := tail.dropWhile isRegexWs
      if afterWs.isEmpty then stripFenceCloses fuel afterWs
      else
        match fromLastNewline ws with
        | some keep => stripFenceCloses fuel (keep ++ afterWs)
        | none => c :: stripFenceCloses fuel rest
    else c :: stripFenceCloses fuel rest

/-- Model of `.replace(/,\s*([\]}])/g, '$1')`: a comma, optional whitespace
and a closing bracket/brace collapse to the bracket/brace. -/
def stripTrailingCommasGo : ℕ → List Char → List Char
  | 0, cs => cs
  | _ + 1, [] => []
  | fuel + 1, c :: rest =>
    if c = commaChar then
      let after := rest.dropWhile isRegexWs
      match after with
      | b :: after' =>
        if b = rbrackChar ∨ b = rbraceChar then b :: stripTrailingCommasGo fuel after'
        else c :: stripTrailingCommasGo fuel rest
      | [] => c :: stripTrailingCommasGo fuel rest
    else c :: stripTrailingCommasGo fuel rest

def stripFencesL (cs : List Char) : List Char :=
  let a := stripFenceOpens (cs.length + 1) true cs
  stripFenceCloses (a.length + 1) a

def stripCommasL (cs : List Char) : List Char :=
  stripTrailingCommasGo (cs.length + 1) cs

/-- Model of `s.match(/\[[\s\S]*\]/)`: the span from the first `[` to the
last `]` of the string, if the latter follows the former. -/
def extractArray (cs : List Char) : Option (List Char) :=
  let after1 := cs.dropWhile (fun c => ¬ c = lbrackChar)
  match after1 with
  | [] => none
  | _ :: tail1 =>
    let revTail := tail1.reverse.dropWhile (fun c => ¬ c = rbrackChar)
    match revTail with
    | [] => none
    | _ :: _ => some (lbrackChar :: revTail.reverse)

/-- Stage-5 string-aware scanner (scrape-bigquery.mjs lines 1591-1607):
re-escape raw newline/return/tab found inside quoted spans, drop other raw
control characters inside quoted spans, pass everything else through. -/
def ctrlScan : List Char → Bool → Bool → List Char
  | [], _, _ => []
  | ch :: rest, inString, escaped =>
    if escaped then ch :: ctrlScan rest inString false
    else if ch = backslashChar ∧ inString then ch :: ctrlScan rest inString true
    else if ch = quoteChar then ch :: ctrlScan rest (!inString) false
    else if inString then
      if ch = nlChar then backslashChar :: Char.ofNat 110 :: ctrlScan rest inString false
      else if ch = crChar then backslashChar :: Char.ofNat 114 :: ctrlScan rest inString false
      else if ch = tabChar then backslashChar :: Char.ofNat 116 :: ctrlScan rest inString false
      else if ch.toNat < 32 then ctrlScan rest inString false
      else ch :: ctrlScan rest inString false
    else ch :: ctrlScan rest inString false

/-- Model of `.replace(/[\x00-\x08\x0b\x0c\x0e-\x1f]/g, '')`. -/
def stripCtrl (cs : List Char) : List Char :=
  cs.filter (fun c =>
    !(decide (c.toNat ≤ 8) || decide (c.toNat = 11) || decide (c.toNat = 12) ||
      decide (14 ≤ c.toNat ∧ c.toNat ≤ 31)))

def escapeCtrls (cs : List Char) : List Char :=
  cs.flatMap (fun c =>
    if c = nlChar then [backslashChar, Char.ofNat 110]
    else if c = crChar then [backslashChar, Char.ofNat 114]
    else if c = tabChar then [backslashChar, Char.ofNat 116]
    else [c])

/-- Model of `.replace(/"([^"]*?)"/g, m => m.replace(...))`: inside each
blind (escape-unaware) quote-to-quote span, newlines/returns/tabs are
escaped. -/
def quoteEscapeGo : ℕ → List Char → List Char
  | 0, cs => cs
  | _ + 1, [] => []
  | fuel + 1, c :: rest =>
    if c = quoteChar then
      let content := rest.takeWhile (fun x => ¬ x = quoteChar)
      let after := rest.dropWhile (fun x => ¬ x = quoteChar)
      match after with
      | _ :: rest' =>
        (quoteChar :: escapeCtrls content) ++ quoteChar :: quoteEscapeGo fuel rest'
      | [] => c :: rest
    else c :: quoteEscapeGo fuel rest

def quoteEscapeL (cs : List Char) : List Char :=
  quoteEscapeGo (cs.length + 1) cs

/-- Embedding of `repairJSON` (scrape-bigquery.mjs lines 1581-1620): the
ordered repair cascade.  `none` models `throw new Error('JSON repair failed')`. -/
def repairJSON (raw : String) : Option JVal :=
  let s := stripCommasL (stripFencesL raw.data)
  match jsonParse s with
  | some v => some v
  | none =>
    let m := extractArray s
    let direct : Option JVal := match m with
      | some ms => jsonParse ms
      | none => none
    match direct with
    | some v => some v
    | none =>
      let src := m.getD s
      let fixed := stripCommasL (ctrlScan src false false)
      match jsonParse fixed with
      | some v => some v
      | none =>
        let nuclear := stripCommasL (quoteEscapeL (stripCtrl src))
        jsonParse nuclear

/-- Result classification for the repair cascade: the repaired value is a
well-formed array whose first element is an object carrying the given
classification (`artifact_type`) value. -/
def firstElemClassification (v : Option JVal) : Option String :=
  match v with
  | some (JVal.jarr (JVal.jobj kvs :: _)) =>
    match kvs.lookup "artifact_type" with
    | some (JVal.jstr t) => some t
    | _ => none
  | _ => none

def repairedOk (input expected : String) : Bool :=
  firstElemClassification (repairJSON input) == some expected

/-! ### Enrichment engine batch/single fallback (`enrichBatchWithGemini`) -/

/-- Embedding of `validateEnrichment` (scrape-bigquery.mjs lines 1624-1632),
restricted to the classification fields: out-of-taxonomy values are coerced to
the discoverer hint / the generic category. -/
def validateEnrichment (p : JVal) (hint : String) : Option Enrichment :=
  let fields : Option (List (String × JVal)) := match p with
    | JVal.jobj kvs => some kvs
    | JVal.jarr _ => some []
    | _ => none
  fields.map (fun kvs =>
    { artifact_type := match kvs.lookup "artifact_type" with
        | some (JVal.jstr t) => if VALID_TYPES.contains t then t else hint
        | _ => hint
      category := match kvs.lookup "category" with
        | some (JVal.jstr c) => if GEMINI_CATEGORIES.contains c then c else "AI / ML"
        | _ => "AI / ML" })

/-- One Gemini HTTP exchange as seen by `enrichBatchWithGemini`. -/
inductive GeminiOutcome
  | rate429
  | httpErr (code : ℕ)
  | ok (raw : String)

/-- The batch-response processing of one successful HTTP exchange
(scrape-bigquery.mjs lines 1759-1774): empty text, unrepairable text, a
non-array value, or an over-long array all raise and are retried; otherwise
the array is padded with `null` to the batch size and validated item-wise. -/
def batchParse (raw : String) (hints : List String) : Option (List (Option Enrichment)) :=
  if raw = "" then none
  else match repairJSON raw with
    | none => none
    | some (JVal.jarr xs) =>
      if hints.length < xs.length then none
      else
        let padded := xs ++ List.replicate (hints.length - xs.length) JVal.jnull
        some ((padded.zip hints).map (fun ph => validateEnrichment ph.1 ph.2))
    | some _ => none

/-- Embedding of the retry loop of `enrichBatchWithGemini` (scrape-bigquery.mjs
lines 1725-1794).  `resps a` is the HTTP outcome of loop index `a`; `singles`
is the result list of the one-by-one fallback (`enrichOneWithGemini` per item,
in order); the fuel counts remaining loop iterations.  Running out of fuel
models the final `return items.map(() => null)`. -/
def enrichBatchGo (resps : ℕ → GeminiOutcome) (singles : List (Option Enrichment))
    (hints : List String) (retries : ℕ) : ℕ → ℕ → List (Option Enrichment)
  | _, 0 => hints.map (fun _ => none)
  | attempt, fuel + 1 =>
    match resps attempt with
    | .rate429 => enrichBatchGo resps singles hints retries (attempt + 1) fuel
    | .httpErr _ =>
      if attempt = retries then singles
      else enrichBatchGo resps singles hints retries (attempt + 1) fuel
    | .ok raw =>
      match batchParse raw hints with
      | some results => results
      | none =>
        if attempt = retries then singles
        else enrichBatchGo resps singles hints retries (attempt + 1) fuel

def enrichBatchWithGemini (resps : ℕ → GeminiOutcome) (singles : List (Option Enrichment))
    (hints : List String) (retries : ℕ) : List (Option Enrichment) :=
  enrichBatchGo resps singles hints retries 0 (retries + 1)

/-! ### Concrete inputs used by witnesses and concrete evaluations -/

/-- A clean model output (no corruption). -/
def cleanInput : String :=
  "[\x7b\"artifact_type\":\"skill\",\"category\":\"DevOps\"\x7d]"

/-- Wrapped in markdown code fences. -/
def fencedInput : String :=
  "```json\n[\x7b\"artifact_type\":\"skill\",\"category\":\"DevOps\"\x7d]\n```"

/-- Trailing comma before the closing brace. -/
def trailingCommaInput : String :=
  "[\x7b\"artifact_type\":\"mcp-server\",\"tags\":[\"db\"],\x7d]"

/-- A raw newline inside a quoted string value. -/
def ctrlCharInput : String :=
  "[\x7b\"artifact_type\":\"skill\",\"long_description\":\"line1\nline2\"\x7d]"

/-- Leading prose (without brackets) before the array. -/
def proseInput : String :=
  "Here are the results:\n[\x7b\"artifact_type\":\"skill\"\x7d]"

/-- Leading prose that itself contains a bracketed fragment. -/
def proseBracketInput : String :=
  "I scanned [3] repos:\n[\x7b\"artifact_type\":\"skill\"\x7d]"

/-- The uncorrupted array underlying `proseInput` and `proseBracketInput`. -/
def uncorruptedArray : String := "[\x7b\"artifact_type\":\"skill\"\x7d]"

/-- A batch response no repair stage can fix. -/
def unrepairableRaw : String := "oops"

def allFailResps : ℕ → GeminiOutcome := fun _ => .ok unrepairableRaw

def sampleEnrichment : Enrichment := { artifact_type := "skill", category := "AI / ML" }

def witnessSingles : List (Option Enrichment) := [some sampleEnrichment, none]

def witnessHints : List String := ["skill", "mcp-server"]

/-- A staged candidate two failures deep, used by witnesses. -/
def sampleRecord : RawRecord :=
  { id := 7
    full_name := "octo/widget"
    repo_name := "widget"
    type_hint := "skill"
    stars := 450
    forks := 89
    github_updated_at_ms := 0
    status := .failed
    enrich_attempts := 2
    enrichment_error := none }

/-- A freshly discovered candidate, used by witnesses. -/
def freshRecord : RawRecord :=
  { id := 8
    full_name := "acme/tool"
    repo_name := "tool"
    type_hint := "mystery-type"
    stars := 10
    forks := 1
    github_updated_at_ms := 0
    status := .pending
    enrich_attempts := 0
    enrichment_error := none }

/-- An enrichment whose artifact-type slug is outside the lookup map. -/
def unknownTypeEnrichment : Enrichment :=
  { artifact_type := "mystery-type", category := "AI / ML" }

def witnessTypeMap : List (String × ℕ) := [("skill", 1), ("mcp-server", 2)]

def witnessCatMap : List (String × ℕ) := [("ai-ml", 41), ("devops", 42)]

/-- Response functions used by the `githubFetch` witness. -/
def respNotFound : ℕ → GhResponse :=
  fun _ => { status := 404, remaining := some 100, resetDeltaMs := 0, body := 0 }

def respRateLimited : ℕ → GhResponse :=
  fun _ => { status := 429, remaining := some 100, resetDeltaMs := 600000, body := 0 }

def respServerErr : ℕ → GhResponse :=
  fun _ => { status := 502, remaining := some 100, resetDeltaMs := 0, body := 0 }

/-! ### Bridge lemmas between `Nat.log`/`Int.log` and real-number `⌊logb 10 _ * k⌋` -/

/-- For naturals, `⌊log10 n * k⌋ = Nat.log 10 (n ^ k)`. -/
lemma floor_logb_mul_nat (n k : ℕ) :
    ⌊Real.logb 10 (n : ℝ) * (k : ℝ)⌋ = (Nat.log 10 (n ^ k) : ℤ) := by
  have h10 : ((10 : ℕ) : ℝ) = (10 : ℝ) := by norm_cast
  rw [mul_comm, ← Real.logb_pow, ← Nat.cast_pow, ← h10,
    Real.floor_logb_natCast (by positivity), Int.log_natCast]

/-- `Int.log` over ℚ agrees with `Int.log` over ℝ on casts of rationals ≥ 1. -/
lemma intLog_ratCast (x : ℚ) (hx : 1 ≤ x) :
    Int.log 10 ((x : ℝ)) = Int.log 10 x := by
  have hx' : (1 : ℝ) ≤ (x : ℝ) := by exact_mod_cast hx
  rw [Int.log_of_one_le_right _ hx', Int.log_of_one_le_right _ hx]
  have hfl : ⌊(x : ℝ)⌋₊ = ⌊x⌋₊ := by
    rw [← Int.floor_toNat, ← Int.floor_toNat, Rat.floor_cast]
  rw [hfl]

/-- For rationals ≥ 1, `⌊logb 10 q * k⌋ = Int.log 10 (q ^ k)`. -/
lemma floor_logb_mul_rat (q : ℚ) (k : ℕ) (hq : 1 ≤ q) :
    ⌊Real.logb 10 (q : ℝ) * (k : ℝ)⌋ = Int.log 10 (q ^ k) := by
  have hqk : (1 : ℚ) ≤ q ^ k := one_le_pow₀ hq
  have hcast : ((q : ℝ)) ^ k = ((q ^ k : ℚ) : ℝ) := by push_cast; ring
  have h10 : ((10 : ℕ) : ℝ) = (10 : ℝ) := by norm_cast
  rw [mul_comm, ← Real.logb_pow, hcast, ← h10,
    Real.floor_logb_natCast (by positivity)]
  exact intLog_ratCast _ hqk

/-! ### Concrete score evaluations -/

lemma starScore_450 : starScore 450 = 39 := by
  have h : Nat.log 10 (450 ^ 15) = 39 :=
    Nat.log_eq_of_pow_le_of_lt_pow (by norm_num) (by norm_num)
  unfold starScore
  rw [show max 1 450 = 450 from rfl, h]
  decide

lemma forkScore_89 : forkScore 89 = 15 := by
  have h : Nat.log 10 (89 ^ 8) = 15 :=
    Nat.log_eq_of_pow_le_of_lt_pow (by norm_num) (by norm_num)
  unfold forkScore
  rw [show max 1 89 = 89 from rfl, h]
  decide

lemma trendingScore_concrete : trendingScore 450 89 2 = 74 := by
  unfold trendingScore
  rw [starScore_450, forkScore_89, show recencyScore 2 = 20 from by unfold recencyScore; norm_num]
  decide

lemma downloadSignal_concrete : downloadSignal 1000 0 = 24 := by
  have h : Nat.log 10 (1000 ^ 8) = 24 :=
    Nat.log_eq_of_pow_le_of_lt_pow (by norm_num) (by norm_num)
  unfold downloadSignal
  rw [show max 1 (1000 + 0) = 1000 from rfl, h]
  norm_num

lemma mentionSignal_concrete : mentionSignal 2 5 = 15 := by
  unfold mentionSignal; norm_num

lemma qualitySignal_concrete : qualitySignal 50 = 16 := by
  have h : Nat.log 10 (50 ^ 10) = 16 :=
    Nat.log_eq_of_pow_le_of_lt_pow (by norm_num) (by norm_num)
  unfold qualitySignal
  rw [show max 1 (50 : ℚ) = 50 from by norm_num,
    show ((50 : ℚ) ^ 10) = ((50 ^ 10 : ℕ) : ℚ) from by push_cast; ring,
    Int.log_natCast, h]
  norm_num

lemma sentimentSignal_concrete : sentimentSignal (2/5) = 7 := by
  unfold sentimentSignal; norm_num [round_eq]

lemma recencySignal_concrete : recencySignal 2 5 = 10 := by
  unfold recencySignal; norm_num

lemma computeVibeScore_concrete : computeVibeScore 1000 0 2 5 50 (2/5) = 72 := by
  unfold computeVibeScore
  rw [downloadSignal_concrete, mentionSignal_concrete, qualitySignal_concrete,
    sentimentSignal_concrete, recencySignal_concrete]
  decide

/-! ### Claim theorems -/

/-- C1: for every candidate with star count `s`, fork count `f` and
last-update age `d` days, the trending score computed when building an
artifact equals
`min(100, min(40, ⌊log10(max(1,s))·15⌋) + min(15, ⌊log10(max(1,f))·8⌋) + r)`
with `r` the 20/15/8/0 recency step; in particular `s = 450`, `f = 89`,
`d = 2` yields 74. -/
theorem C1_trending_score_formula (s f : ℕ) (d : ℚ) :
    ((trendingScore s f d : ℤ) =
      min 100 (min 40 ⌊Real.logb 10 (max 1 (s : ℝ)) * 15⌋
        + min 15 ⌊Real.logb 10 (max 1 (f : ℝ)) * 8⌋
        + (if d < 14 then 20 else if d < 30 then 15 else if d < 90 then 8 else 0)))
    ∧ trendingScore 450 89 2 = 74 := by
  constructor
  · have hs : ⌊Real.logb 10 (max 1 (s : ℝ)) * 15⌋ = ((Nat.log 10 (max 1 s ^ 15) : ℕ) : ℤ) := by
      have hc : ((max 1 s : ℕ) : ℝ) = max 1 (s : ℝ) := by push_cast; rfl
      have h := floor_logb_mul_nat (max 1 s) 15
      rw [hc] at h
      simpa using h
    have hf : ⌊Real.logb 10 (max 1 (f : ℝ)) * 8⌋ = ((Nat.log 10 (max 1 f ^ 8) : ℕ) : ℤ) := by
      have hc : ((max 1 f : ℕ) : ℝ) = max 1 (f : ℝ) := by push_cast; rfl
      have h := floor_logb_mul_nat (max 1 f) 8
      rw [hc] at h
      simpa using h
    rw [hs, hf]
    unfold trendingScore starScore forkScore recencyScore
    push_cast [apply_ite (fun n : ℕ => (n : ℤ))]
    norm_num
  · exact trendingScore_concrete

/-- C2: for all non-negative inputs and sentiment average in `[-1,1]`, the
vibe score equals `min(100, D + M + Q + S + R)` with each component
independently capped as specified, and the sentiment component
`S = round((sentimentAvg+1)·5)` lies in `[0,10]`. -/
theorem C2_vibe_score_components (npm pypi m7 m30 : ℕ) (avgScore sentimentAvg : ℚ)
    (_havg : 0 ≤ avgScore) (hs1 : -1 ≤ sentimentAvg) (hs2 : sentimentAvg ≤ 1) :
    (computeVibeScore npm pypi m7 m30 avgScore sentimentAvg =
      min 100 (min 30 ⌊Real.logb 10 (max 1 ((npm : ℝ) + (pypi : ℝ))) * 8⌋
        + min 30 ((m7 : ℤ) * 5 + (m30 : ℤ) * 1)
        + min 20 ⌊Real.logb 10 (max 1 (avgScore : ℝ)) * 10⌋
        + round ((sentimentAvg + 1) * 5)
        + (if 0 < m7 then 10 else if 0 < m30 then 5 else 0)))
    ∧ 0 ≤ round ((sentimentAvg + 1) * 5) ∧ round ((sentimentAvg + 1) * 5) ≤ 10 := by
  refine ⟨?_, ?_, ?_⟩
  · have hd : ⌊Real.logb 10 (max 1 ((npm : ℝ) + (pypi : ℝ))) * 8⌋
        = ((Nat.log 10 (max 1 (npm + pypi) ^ 8) : ℕ) : ℤ) := by
      have hc : ((max 1 (npm + pypi) : ℕ) : ℝ) = max 1 ((npm : ℝ) + (pypi : ℝ)) := by
        push_cast; rfl
      have h := floor_logb_mul_nat (max 1 (npm + pypi)) 8
      rw [hc] at h
      simpa using h
    have hq : ⌊Real.logb 10 (max 1 (avgScore : ℝ)) * 10⌋
        = Int.log 10 (max 1 avgScore ^ 10) := by
      have hc : ((max 1 avgScore : ℚ) : ℝ) = max 1 (avgScore : ℝ) := by
        rw [Rat.cast_max]
        norm_num
      have h := floor_logb_mul_rat (max 1 avgScore) 10 (le_max_left _ _)
      rw [hc] at h
      simpa using h
    rw [hd, hq]
    rfl
  · rw [round_eq]
    exact Int.floor_nonneg.2 (by linarith)
  · rw [round_eq, Int.floor_le_iff]
    push_cast
    linarith

/-- C2 witness: the theorem applied at the concrete vibe input of the spec's
end-to-end scenario. -/
theorem C2_vibe_score_components_witness :
    ((0 : ℚ) ≤ 50 ∧ (-1 : ℚ) ≤ 2/5 ∧ (2/5 : ℚ) ≤ 1)
    ∧ ((computeVibeScore 1000 0 2 5 50 (2/5) =
        min 100 (min 30 ⌊Real.logb 10 (max 1 (((1000 : ℕ) : ℝ) + ((0 : ℕ) : ℝ))) * 8⌋
          + min 30 (((2 : ℕ) : ℤ) * 5 + ((5 : ℕ) : ℤ) * 1)
          + min 20 ⌊Real.logb 10 (max 1 ((50 : ℚ) : ℝ)) * 10⌋
          + round (((2/5 : ℚ) + 1) * 5)
          + (if (0 : ℕ) < 2 then 10 else if (0 : ℕ) < 5 then 5 else 0)))
      ∧ 0 ≤ round (((2/5 : ℚ) + 1) * 5) ∧ round (((2/5 : ℚ) + 1) * 5) ≤ 10) :=
  ⟨⟨by norm_num, by norm_num, by norm_num⟩,
    C2_vibe_score_components 1000 0 2 5 50 (2/5) (by norm_num) (by norm_num) (by norm_num)⟩

/-- C3 counterexample: at the spec's own concrete vibe input the code returns
72, not 73, because `⌊log10(50)·10⌋ = 16`, not 17. -/
theorem C3_vibe_concrete_counterexample :
    computeVibeScore 1000 0 2 5 50 (2/5) ≠ 73 ∧ qualitySignal 50 ≠ 17 := by
  constructor
  · rw [computeVibeScore_concrete]
    norm_num
  · rw [qualitySignal_concrete]
    norm_num

/-- C3 amended: for the input `{npmDownloads: 1000, pypiDownloads: 0,
mentions7d: 2, mentions30d: 5, avgScore: 50, sentimentAvg: 0.4}` the
vibe-score function returns 72, with components downloadSignal = 24,
mentionSignal = 15, qualitySignal = 16, sentimentSignal = 7,
recencySignal = 10. -/
theorem C3_vibe_concrete_amended :
    computeVibeScore 1000 0 2 5 50 (2/5) = 72
    ∧ downloadSignal 1000 0 = 24
    ∧ mentionSignal 2 5 = 15
    ∧ qualitySignal 50 = 16
    ∧ sentimentSignal (2/5) = 7
    ∧ recencySignal 2 5 = 10 :=
  ⟨computeVibeScore_concrete, downloadSignal_concrete, mentionSignal_concrete,
    qualitySignal_concrete, sentimentSignal_concrete, recencySignal_concrete⟩

/-- If the repair cascade throws, the whole batch response processing throws. -/
lemma batchParse_of_repair_none {raw : String} (hints : List String)
    (h : repairJSON raw = none) : batchParse raw hints = none := by
  unfold batchParse
  by_cases he : raw = ""
  · simp [he]
  · simp [he, h]

/-- One failed batch attempt that is not the last one moves to the next loop
iteration. -/
lemma enrichBatchGo_fail_step (resps : ℕ → GeminiOutcome)
    (singles : List (Option Enrichment)) (hints : List String)
    (retries attempt fuel : ℕ) (raw : String)
    (hresp : resps attempt = GeminiOutcome.ok raw) (hrep : repairJSON raw = none)
    (hne : attempt ≠ retries) :
    enrichBatchGo resps singles hints retries attempt (fuel + 1)
      = enrichBatchGo resps singles hints retries (attempt + 1) fuel := by
  simp [enrichBatchGo, hresp, batchParse_of_repair_none hints hrep, hne]

/-- A failed batch attempt at the last loop iteration returns the one-by-one
fallback results. -/
lemma enrichBatchGo_fail_last (resps : ℕ → GeminiOutcome)
    (singles : List (Option Enrichment)) (hints : List String)
    (retries fuel : ℕ) (raw : String)
    (hresp : resps retries = GeminiOutcome.ok raw) (hrep : repairJSON raw = none) :
    enrichBatchGo resps singles hints retries retries (fuel + 1) = singles := by
  simp [enrichBatchGo, hresp, batchParse_of_repair_none hints hrep]

/-- C4 counterexample: `proseBracketInput` is a valid JSON array of objects
after removing the leading prose `"I scanned [3] repos:\n"`, yet the repair
cascade fails on it (the array-extraction stage latches onto the `[3]` inside
the prose), so the cascade does not return an array for it, contradicting the
claim's universal statement. -/
theorem C4_repair_cascade_counterexample :
    proseBracketInput = "I scanned [3] repos:\n" ++ uncorruptedArray
    ∧ (jsonParse uncorruptedArray.data).isSome = true
    ∧ repairJSON proseBracketInput = none :=
  ⟨by decide, by decide, by rfl⟩

/-- C4 amended: on a representative corpus of singly-corrupted inputs —
uncorrupted, markdown-fenced, trailing comma, raw newline inside a quoted
string value, and leading prose free of brackets — the repair cascade returns
a well-formed array whose first element retains its classification field. -/
theorem C4_repair_cascade_corpus :
    repairedOk cleanInput "skill" = true
    ∧ repairedOk fencedInput "skill" = true
    ∧ repairedOk trailingCommaInput "mcp-server" = true
    ∧ repairedOk ctrlCharInput "skill" = true
    ∧ repairedOk proseInput "skill" = true :=
  ⟨by decide, by decide, by decide, by decide, by decide⟩

/-- C5: a batch call whose model output fails every repair stage on every
retry attempt falls back to one single-item call per candidate (returning the
per-candidate result array), and every candidate whose enrichment result is
null is marked failed or skipped with its attempt counter incremented — its
staging record never leaves the run unchanged. -/
theorem C5_batch_fallback_and_failure_marking :
    (∀ (resps : ℕ → GeminiOutcome) (raws : ℕ → String)
        (singles : List (Option Enrichment)) (hints : List String),
      (∀ a, a ≤ 2 → resps a = GeminiOutcome.ok (raws a) ∧ repairJSON (raws a) = none) →
      singles.length = hints.length →
      enrichBatchWithGemini resps singles hints 2 = singles ∧
      (enrichBatchWithGemini resps singles hints 2).length = hints.length)
    ∧ (∀ r : RawRecord,
      ((markFailed r).status = EnrichStatus.failed ∨
        (markFailed r).status = EnrichStatus.skipped) ∧
      (markFailed r).enrich_attempts = r.enrich_attempts + 1 ∧
      markFailed r ≠ r) := by
  constructor
  · intro resps raws singles hints h hlen
    obtain ⟨h0, h0r⟩ := h 0 (by norm_num)
    obtain ⟨h1, h1r⟩ := h 1 (by norm_num)
    obtain ⟨h2, h2r⟩ := h 2 (by norm_num)
    have hval : enrichBatchWithGemini resps singles hints 2 = singles := by
      unfold enrichBatchWithGemini
      calc enrichBatchGo resps singles hints 2 0 (2 + 1)
          = enrichBatchGo resps singles hints 2 1 2 :=
            enrichBatchGo_fail_step resps singles hints 2 0 2 (raws 0) h0 h0r (by norm_num)
        _ = enrichBatchGo resps singles hints 2 2 1 :=
            enrichBatchGo_fail_step resps singles hints 2 1 1 (raws 1) h1 h1r (by norm_num)
        _ = singles :=
            enrichBatchGo_fail_last resps singles hints 2 0 (raws 2) h2 h2r
    exact ⟨hval, by rw [hval, hlen]⟩
  · intro r
    refine ⟨?_, rfl, ?_⟩
    · by_cases h : MAX_ENRICH_ATTEMPTS ≤ r.enrich_attempts + 1
      · right; simp [markFailed, h]
      · left; simp [markFailed, h]
    · intro heq
      have := congrArg RawRecord.enrich_attempts heq
      simp [markFailed] at this

/-- C5 witness: the theorem applied to an all-attempts-unrepairable batch of
two candidates and to a concrete staged record. -/
theorem C5_batch_fallback_witness :
    (enrichBatchWithGemini allFailResps witnessSingles witnessHints 2 = witnessSingles ∧
      (enrichBatchWithGemini allFailResps witnessSingles witnessHints 2).length
        = witnessHints.length)
    ∧ (((markFailed sampleRecord).status = EnrichStatus.failed ∨
        (markFailed sampleRecord).status = EnrichStatus.skipped) ∧
      (markFailed sampleRecord).enrich_attempts = sampleRecord.enrich_attempts + 1 ∧
      markFailed sampleRecord ≠ sampleRecord) :=
  ⟨C5_batch_fallback_and_failure_marking.1 allFailResps (fun _ => unrepairableRaw)
      witnessSingles witnessHints (fun _ _ => ⟨rfl, by rfl⟩) (by decide),
    C5_batch_fallback_and_failure_marking.2 sampleRecord⟩

/-- C6: an enrichment failure that raises the cumulative attempt counter to
`MAX_ENRICH_ATTEMPTS` sets the terminal status `skipped` (not `failed`), and
the pending-work selection (status in `{pending, failed}` and attempts below
the budget) excludes the record. -/
theorem C6_terminal_skip (r : RawRecord)
    (h : r.enrich_attempts + 1 = MAX_ENRICH_ATTEMPTS) :
    (markFailed r).status = EnrichStatus.skipped ∧
    (markFailed r).status ≠ EnrichStatus.failed ∧
    selectedByListPending (markFailed r) = false := by
  have hs : (markFailed r).status = EnrichStatus.skipped := by
    simp [markFailed, h]
  refine ⟨hs, by rw [hs]; simp, ?_⟩
  simp [selectedByListPending, hs]

/-- C6 witness: the theorem applied to a record with two prior failures. -/
theorem C6_terminal_skip_witness :
    sampleRecord.enrich_attempts + 1 = MAX_ENRICH_ATTEMPTS ∧
    ((markFailed sampleRecord).status = EnrichStatus.skipped ∧
      (markFailed sampleRecord).status ≠ EnrichStatus.failed ∧
      selectedByListPending (markFailed sampleRecord) = false) :=
  ⟨by decide, C6_terminal_skip sampleRecord (by decide)⟩

/-- C7: re-upserting a rediscovered repository merges only the metadata
columns carried by `repoToRawRow`; since that row carries no
`enrichment_status` and no `enrich_attempts` column, the stored enrichment
status (in particular `enriched`) and attempt counter are preserved, while
metadata such as star counts and timestamps are refreshed. -/
theorem C7_rediscovery_preserves_enrichment (stored : String → SBValue)
    (repo : GhRepo) (hint : String) (readme : Option String) (nowIso : String) :
    sbMergeUpsert stored (repoToRawRow repo hint readme nowIso) "enrichment_status"
      = stored "enrichment_status"
    ∧ sbMergeUpsert stored (repoToRawRow repo hint readme nowIso) "enrich_attempts"
      = stored "enrich_attempts"
    ∧ sbMergeUpsert stored (repoToRawRow repo hint readme nowIso) "stars"
      = SBValue.n repo.stargazers_count
    ∧ sbMergeUpsert stored (repoToRawRow repo hint readme nowIso) "github_updated_at"
      = SBValue.s repo.updated_at :=
  ⟨rfl, rfl, rfl, rfl⟩

/-- A 404/422 response makes `githubFetch` return null from the current
iteration without issuing further requests. -/
lemma ghGo_fatal (resp : ℕ → GhResponse) (retries attempt fuel : ℕ)
    (h : (resp attempt).status = 404 ∨ (resp attempt).status = 422) :
    (githubFetchGo resp retries attempt (fuel + 1)).result = none ∧
    (githubFetchGo resp retries attempt (fuel + 1)).requests = 1 := by
  rcases h with h | h <;> simp [githubFetchGo, h]

/-- Under all-429/403 responses the loop runs its full budget, returns null
and every backoff sleep is capped at 120000 ms. -/
lemma ghGo_rate_all (resp : ℕ → GhResponse) (retries : ℕ)
    (h : ∀ a, (resp a).status = 429 ∨ (resp a).status = 403) :
    ∀ fuel attempt, attempt + fuel = retries + 1 →
      (githubFetchGo resp retries attempt fuel).result = none ∧
      (githubFetchGo resp retries attempt fuel).requests = fuel ∧
      ∀ w ∈ (githubFetchGo resp retries attempt fuel).backoffWaits, w ≤ 120000 := by
  intro fuel
  induction fuel with
  | zero =>
    intro attempt _
    exact ⟨rfl, rfl, by simp [githubFetchGo]⟩
  | succ n ih =>
    intro attempt hat
    by_cases hlt : attempt < retries
    · have hrec := ih (attempt + 1) (by omega)
      refine ⟨?_, ?_, ?_⟩
      · rcases h attempt with h' | h' <;> simp [githubFetchGo, h', hlt, hrec.1]
      · rcases h attempt with h' | h' <;>
          · simp [githubFetchGo, h', hlt, hrec.2.1]
            omega
      · intro w hw
        have hmem : w = rateBackoff (resp attempt).resetDeltaMs ∨
            w ∈ (githubFetchGo resp retries (attempt + 1) n).backoffWaits := by
          rcases h attempt with h' | h' <;>
            simpa [githubFetchGo, h', hlt] using hw
        rcases hmem with rfl | hmem
        · exact min_le_right _ _
        · exact hrec.2.2 w hmem
    · have hn : n = 0 := by omega
      subst hn
      rcases h attempt with h' | h' <;> simp [githubFetchGo, h', hlt]

/-- C8: a 404/422 response returns null immediately with no retry; all-429/403
responses are retried up to the budget with every backoff wait capped at
120000 ms and final result null; a 5xx response before the last attempt is
retried after a linear `3000·(attempt+1)` ms sleep. -/
theorem C8_github_fetch_retry_policy :
    (∀ resp : ℕ → GhResponse,
      ((resp 0).status = 404 ∨ (resp 0).status = 422) →
      (githubFetch resp GITHUB_MAX_RETRIES).result = none ∧
      (githubFetch resp GITHUB_MAX_RETRIES).requests = 1)
    ∧ (∀ resp : ℕ → GhResponse,
      (∀ a, (resp a).status = 429 ∨ (resp a).status = 403) →
      (githubFetch resp GITHUB_MAX_RETRIES).result = none ∧
      (githubFetch resp GITHUB_MAX_RETRIES).requests = GITHUB_MAX_RETRIES + 1 ∧
      ∀ w ∈ (githubFetch resp GITHUB_MAX_RETRIES).backoffWaits, w ≤ 120000)
    ∧ (∀ (resp : ℕ → GhResponse) (retries attempt fuel : ℕ),
      500 ≤ (resp attempt).status → attempt < retries →
      (githubFetchGo resp retries attempt (fuel + 1)).serverWaits
        = 3000 * ((attempt : ℤ) + 1)
          :: (githubFetchGo resp retries (attempt + 1) fuel).serverWaits ∧
      (githubFetchGo resp retries attempt (fuel + 1)).result
        = (githubFetchGo resp retries (attempt + 1) fuel).result) := by
  refine ⟨?_, ?_, ?_⟩
  · intro resp h
    exact ghGo_fatal resp GITHUB_MAX_RETRIES 0 GITHUB_MAX_RETRIES h
  · intro resp h
    exact ghGo_rate_all resp GITHUB_MAX_RETRIES h (GITHUB_MAX_RETRIES + 1) 0 (by omega)
  · intro resp retries attempt fuel h hlt
    have h403 : ¬((resp attempt).status = 403 ∨ (resp attempt).status = 429) := by omega
    have h404 : ¬((resp attempt).status = 404 ∨ (resp attempt).status = 422) := by omega
    have h2xx : ¬(200 ≤ (resp attempt).status ∧ (resp attempt).status < 300) := by omega
    constructor <;> simp [githubFetchGo, h403, h404, h2xx, h, hlt]

/-- C8 witness: the three parts of the theorem applied to concrete response
streams (a 404 stream, a 429 stream with a far-away reset, a 502 stream). -/
theorem C8_github_fetch_witness :
    ((githubFetch respNotFound GITHUB_MAX_RETRIES).result = none ∧
      (githubFetch respNotFound GITHUB_MAX_RETRIES).requests = 1)
    ∧ ((githubFetch respRateLimited GITHUB_MAX_RETRIES).result = none ∧
      (githubFetch respRateLimited GITHUB_MAX_RETRIES).requests = GITHUB_MAX_RETRIES + 1 ∧
      ∀ w ∈ (githubFetch respRateLimited GITHUB_MAX_RETRIES).backoffWaits, w ≤ 120000)
    ∧ ((githubFetchGo respServerErr GITHUB_MAX_RETRIES 0 (3 + 1)).serverWaits
        = 3000 * (((0 : ℕ) : ℤ) + 1)
          :: (githubFetchGo respServerErr GITHUB_MAX_RETRIES (0 + 1) 3).serverWaits ∧
      (githubFetchGo respServerErr GITHUB_MAX_RETRIES 0 (3 + 1)).result
        = (githubFetchGo respServerErr GITHUB_MAX_RETRIES (0 + 1) 3).result) :=
  ⟨C8_github_fetch_retry_policy.1 respNotFound (Or.inl rfl),
    C8_github_fetch_retry_policy.2.1 respRateLimited (fun _ => Or.inl rfl),
    C8_github_fetch_retry_policy.2.2 respServerErr GITHUB_MAX_RETRIES 0 3
      (by decide) (by decide)⟩

/-- C9: when enrichment succeeds but the artifact-type slug has no entry in
the type lookup map, the run increments the attempt counter, leaves the
enrichment status untouched, and writes no artifact row. -/
theorem C9_unknown_type_slug (typeMap catMap : List (String × ℕ)) (nowMs : ℤ)
    (r : RawRecord) (e : Enrichment) (cid : Option ℕ)
    (h : typeMap.lookup (typeSlugOf (some e) r) = none) :
    (recordAfterRun typeMap catMap nowMs r (some e) cid).status = r.status ∧
    (recordAfterRun typeMap catMap nowMs r (some e) cid).enrich_attempts
      = r.enrich_attempts + 1 ∧
    buildArtifact typeMap catMap nowMs r (some e) cid = none := by
  have hb : buildArtifact typeMap catMap nowMs r (some e) cid = none := by
    simp [buildArtifact, h]
  refine ⟨?_, ?_, hb⟩ <;> simp [recordAfterRun, hb]

/-- C9 witness: the theorem applied to a freshly discovered record whose
enrichment carries an unknown artifact-type slug. -/
theorem C9_unknown_type_slug_witness :
    witnessTypeMap.lookup (typeSlugOf (some unknownTypeEnrichment) freshRecord) = none ∧
    ((recordAfterRun witnessTypeMap witnessCatMap 0 freshRecord
        (some unknownTypeEnrichment) none).status = freshRecord.status ∧
      (recordAfterRun witnessTypeMap witnessCatMap 0 freshRecord
        (some unknownTypeEnrichment) none).enrich_attempts
        = freshRecord.enrich_attempts + 1 ∧
      buildArtifact witnessTypeMap witnessCatMap 0 freshRecord
        (some unknownTypeEnrichment) none = none) :=
  ⟨by decide, C9_unknown_type_slug witnessTypeMap witnessCatMap 0 freshRecord
    unknownTypeEnrichment none (by decide)⟩

/-- C10: the slug derivation is not injective — `a-b/c` and `a/b-c` are
distinct canonical identifiers with the same slug. -/
theorem C10_slug_not_injective :
    slugOf "a-b/c" = slugOf "a/b-c" ∧ ("a-b/c" : String) ≠ "a/b-c" ∧
    ¬ Function.Injective slugOf := by
  refine ⟨by decide, by decide, fun hinj => ?_⟩
  have h1 : ("a-b/c" : String) = "a/b-c" :=
    hinj (show slugOf "a-b/c" = slugOf "a/b-c" by decide)
  exact absurd h1 (by decide)

end OneSkill
